import Mathlib

/-!
Verification of the deferred-shading core of the NPGR019 `09-Deferred` example
(`scene.h` / `scene.cpp` / `shaders.h` / `MathSupport.h`).

Modelling conventions:
* `float` values are embedded as exact rationals (`ℚ`); the derived light radius,
  which the source computes with `sqrt`, is additionally modelled exactly over `ℝ`
  (`Real.sqrt`) for the claims about it.
* Calls into the C math library (`sinf`/`cosf` inside the `lissajous` lambda,
  `sqrt` inside `getLightRadius`), `rand()` and `glm::rotate` are external
  collaborators; they enter the model as explicit function parameters (oracles).
  All claims settled here are independent of the concrete values these return,
  except where the exact `Real.sqrt` model is used instead.
* OpenGL buffer uploads (`glMapBuffer` + `memcpy` of a record prefix) are modelled
  as pointwise overwrites of the first `count` records of a table.
-/

namespace Deferred

/-- glm::vec3 with exact rational components. -/
structure Vec3 where
  x : ℚ
  y : ℚ
  z : ℚ
deriving DecidableEq, Inhabited

/-- glm::vec4 with exact rational components. -/
structure Vec4 where
  x : ℚ
  y : ℚ
  z : ℚ
  w : ℚ
deriving DecidableEq, Inhabited

/-- Componentwise sum, glm `vec3 + vec3`. -/
def Vec3.add (a b : Vec3) : Vec3 := ⟨a.x + b.x, a.y + b.y, a.z + b.z⟩

instance : Add Vec3 := ⟨Vec3.add⟩

/-- Componentwise difference, glm `vec3 - vec3`. -/
def Vec3.sub (a b : Vec3) : Vec3 := ⟨a.x - b.x, a.y - b.y, a.z - b.z⟩

instance : Sub Vec3 := ⟨Vec3.sub⟩

/-- Componentwise product, GLSL/glm `vec3 * vec3`. -/
def Vec3.mul (a b : Vec3) : Vec3 := ⟨a.x * b.x, a.y * b.y, a.z * b.z⟩

instance : Mul Vec3 := ⟨Vec3.mul⟩

/-- Componentwise quotient, GLSL `vec3 / vec3`. -/
def Vec3.div (a b : Vec3) : Vec3 := ⟨a.x / b.x, a.y / b.y, a.z / b.z⟩

instance : Div Vec3 := ⟨Vec3.div⟩

/-- glm::dot for vec3. -/
def Vec3.dot (a b : Vec3) : ℚ := a.x * b.x + a.y * b.y + a.z * b.z

/-- glm `vec4 * scalar` (componentwise). -/
def Vec4.smul (v : Vec4) (k : ℚ) : Vec4 := ⟨v.x * k, v.y * k, v.z * k, v.w * k⟩

/-- glm::vec4(v, w) packing a vec3 and a scalar. -/
def Vec4.ofVec3 (v : Vec3) (w : ℚ) : Vec4 := ⟨v.x, v.y, v.z, w⟩

/-- glm::mat4x4, column major: four columns, each a vec4 (as in glm). -/
structure Mat4 where
  c0 : Vec4
  c1 : Vec4
  c2 : Vec4
  c3 : Vec4
deriving DecidableEq, Inhabited

/-- glm::mat3x4, column major: three columns, each a vec4. -/
structure Mat3x4 where
  c0 : Vec4
  c1 : Vec4
  c2 : Vec4
deriving DecidableEq, Inhabited

/-- Column-major matrix * vector (glm semantics). -/
def Mat4.mulVec (m : Mat4) (v : Vec4) : Vec4 :=
  ⟨m.c0.x * v.x + m.c1.x * v.y + m.c2.x * v.z + m.c3.x * v.w,
   m.c0.y * v.x + m.c1.y * v.y + m.c2.y * v.z + m.c3.y * v.w,
   m.c0.z * v.x + m.c1.z * v.y + m.c2.z * v.z + m.c3.z * v.w,
   m.c0.w * v.x + m.c1.w * v.y + m.c2.w * v.z + m.c3.w * v.w⟩

/-- Matrix product (glm `mat4 * mat4`): columns of the product are the left
matrix applied to the right matrix's columns. -/
def Mat4.mul (a b : Mat4) : Mat4 :=
  ⟨a.mulVec b.c0, a.mulVec b.c1, a.mulVec b.c2, a.mulVec b.c3⟩

instance : Mul Mat4 := ⟨Mat4.mul⟩

/-- glm::transpose on a 4x4 matrix. -/
def Mat4.transpose (m : Mat4) : Mat4 :=
  ⟨⟨m.c0.x, m.c1.x, m.c2.x, m.c3.x⟩,
   ⟨m.c0.y, m.c1.y, m.c2.y, m.c3.y⟩,
   ⟨m.c0.z, m.c1.z, m.c2.z, m.c3.z⟩,
   ⟨m.c0.w, m.c1.w, m.c2.w, m.c3.w⟩⟩

/-- glm conversion mat4x4 -> mat3x4 (keeps the first three columns, as glm does
on assignment such as `glm::mat3x4 m = glm::transpose(t);`). -/
def Mat4.toMat3x4 (m : Mat4) : Mat3x4 := ⟨m.c0, m.c1, m.c2⟩

/-- glm::translate(v): identity with translation in the fourth column. -/
def Mat4.translate (v : Vec3) : Mat4 :=
  ⟨⟨1, 0, 0, 0⟩, ⟨0, 1, 0, 0⟩, ⟨0, 0, 1, 0⟩, ⟨v.x, v.y, v.z, 1⟩⟩

/-- glm::scale(v): diagonal scaling matrix. -/
def Mat4.scale (v : Vec3) : Mat4 :=
  ⟨⟨v.x, 0, 0, 0⟩, ⟨0, v.y, 0, 0⟩, ⟨0, 0, v.z, 0⟩, ⟨0, 0, 0, 1⟩⟩

/-- glm::vec3(s) splatting a scalar into all three components. -/
def Vec3.splat (s : ℚ) : Vec3 := ⟨s, s, s⟩

/-- The Instance Transform Record as the source stores it:
`instanceData[i].transformation = glm::transpose(transformation)` where the
field has type `glm::mat3x4` - the transpose truncated to its first three
columns, i.e. the first three rows of the original transform. -/
def storeTransform (m : Mat4) : Mat3x4 := m.transpose.toMat3x4

/-- Reconstruction procedure named by the spec (claim C7): transpose the stored
3x4 record back and append the implicit homogeneous row (0,0,0,1). Column j of
the result is (c0[j], c1[j], c2[j], lastRow[j]). -/
def reconstructTransform (m : Mat3x4) : Mat4 :=
  ⟨⟨m.c0.x, m.c1.x, m.c2.x, 0⟩,
   ⟨m.c0.y, m.c1.y, m.c2.y, 0⟩,
   ⟨m.c0.z, m.c1.z, m.c2.z, 0⟩,
   ⟨m.c0.w, m.c1.w, m.c2.w, 1⟩⟩

/-- getLuminousIntensity from MathSupport.h: 0.2126 r + 0.7152 g + 0.0722 b. -/
def getLuminousIntensity (color : Vec3) : ℚ :=
  0.2126 * color.x + 0.7152 * color.y + 0.0722 * color.z

/-- The light radius exactly as `getLightRadius` in Scene::Init computes it:
sqrt(luminousIntensity / cutoff) with cutoff = 0.1; the luminous intensity and
the division are exact in ℚ, the square root is taken in ℝ. -/
noncomputable def getLightRadius (r g b : ℚ) : ℝ :=
  Real.sqrt ((getLuminousIntensity ⟨r, g, b⟩ / (0.1 : ℚ) : ℚ) : ℝ)

/-- The exact influence radius belonging to a stored light color (xyz channels). -/
noncomputable def lightRadiusOfColor (c : Vec4) : ℝ := getLightRadius c.x c.y c.z

/-- getRandom from MathSupport.h: `min + rand()/(RAND_MAX/(max-min))`.
With u = rand()/RAND_MAX in [0,1] (the oracle draw) this equals
min + u * (max - min). -/
def getRandom (u min max : ℚ) : ℚ := min + u * (max - min)

/-- ApplyTonemapping from the tonemapping fragment shader (shaders.h):
Reinhard global operator `hdr / (hdr + vec3(1.0))`. -/
def ApplyTonemapping (hdr : Vec3) : Vec3 := hdr / (hdr + ⟨1, 1, 1⟩)

/-- Scene::Light (scene.h): position, color+ambient intensity, movement-curve
parameters, derived radius. -/
structure Light where
  position : Vec3
  color : Vec4
  movement : Vec4
  radius : ℚ
deriving DecidableEq, Inhabited

/-- Scene::InstanceData (scene.h): one transposed 3x4 transformation record. -/
structure InstanceData where
  transformation : Mat3x4
deriving DecidableEq, Inhabited

/-- Scene::LightData (scene.h): light position+radius and color records. -/
structure LightData where
  position : Vec4
  color : Vec4
deriving DecidableEq, Inhabited

/-- Scene::LightSet (scene.h). -/
inductive LightSet where
  | All
  | Inside
  | Outside
deriving DecidableEq, Inhabited

/-- The CPU-visible state of the Scene singleton (scene.h data members that the
claims touch; GPU object names are plain naturals). -/
structure Scene where
  numCubes : ℕ
  cubePositions : List Vec3
  numLights : ℕ
  lights : List Light
  insideLights : List ℕ
  outsideLights : List ℕ
  vao : ℕ
  instancingBuffer : ℕ
  lightBuffer : ℕ
  transformBlockUBO : ℕ
  quad : ℕ
  cube : ℕ
  icosahedron : ℕ
  loadedTextures : List ℕ
deriving DecidableEq, Inhabited

/-- The default-constructed Scene (member initializers in scene.h; `_numLights`
has no initializer in the source and is first written by Init - it is taken as 0
here). -/
def Scene.initial : Scene :=
  { numCubes := 10, cubePositions := [], numLights := 0, lights := [],
    insideLights := [], outsideLights := [], vao := 0, instancingBuffer := 0,
    lightBuffer := 0, transformBlockUBO := 0, quad := 0, cube := 0,
    icosahedron := 0, loadedTextures := [] }

/-- The two GPU-resident record tables (uniform buffer objects) written by
UpdateInstanceData / UpdateLightData, indexed by record slot. -/
structure Gpu where
  instancingTable : ℕ → InstanceData
  lightTable : ℕ → LightData

/-- Names returned by the GL object-creation calls during Scene::Init, plus the
texture handles - external collaborators, supplied as an oracle record. -/
structure GLEnv where
  newVao : ℕ
  newInstancingBuffer : ℕ
  newLightBuffer : ℕ
  newTransformBlockUBO : ℕ
  newQuad : ℕ
  newCube : ℕ
  newIcosahedron : ℕ
  newTextures : List ℕ
deriving DecidableEq, Inhabited

/-- Scaling factor for lights movement curve (scene.cpp, file static). -/
def scale : Vec3 := ⟨13, 2, 13⟩

/-- Offset for lights movement curve (scene.cpp, file static). -/
def offset : Vec3 := ⟨0, 3, 0⟩

/-- Ambient intensity for the lights (Scene::Init, source spelling kept). -/
def ambientIntentsity : ℚ := 1e-3

/-- The stored light radius as Scene::Init computes it; `sqrt` from the C math
library is an oracle parameter `sqrtA`, the argument luminousIntensity/cutoff is
exact. The exact-real counterpart is `getLightRadius`. -/
def storedLightRadius (sqrtA : ℚ → ℚ) (r g b : ℚ) : ℚ :=
  sqrtA (getLuminousIntensity ⟨r, g, b⟩ / (0.1 : ℚ))

/-- One randomly parameterized light of Scene::Init: four movement parameters
drawn from [-2,2], three color channels drawn from [0,25], position seeded from
the lissajous curve at t = 0 (the curve's sinf/cosf enter through the oracle
`liss`). `base` is the position of this light's first draw in the rand() stream
`u`. -/
def initRandomLight (u : ℕ → ℚ) (sqrtA : ℚ → ℚ) (liss : Vec4 → ℚ → Vec3)
    (base : ℕ) : Light :=
  let x := getRandom (u base) (-2) 2
  let y := getRandom (u (base + 1)) (-2) 2
  let z := getRandom (u (base + 2)) (-2) 2
  let w := getRandom (u (base + 3)) (-2) 2
  let p : Vec4 := ⟨x, y, z, w⟩
  let r := getRandom (u (base + 4)) 0 25
  let g := getRandom (u (base + 5)) 0 25
  let b := getRandom (u (base + 6)) 0 25
  let c : Vec4 := ⟨r, g, b, ambientIntentsity⟩
  { position := offset + liss p 0 * scale, color := c, movement := p,
    radius := storedLightRadius sqrtA r g b }

/-- Scene::Init. Returns immediately when `_vao` is non-zero; otherwise stores
the counts, creates GL objects (names from the oracle `env`), appends the cube
positions (first cube fixed, the rest drawn from the rand() stream `u`), and
appends the lights (deterministic hero light first, then `numLights - 1` random
ones). The rand() stream is consumed in source order: 3 draws per random cube,
then 7 per random light. -/
def Scene.init (env : GLEnv) (u : ℕ → ℚ) (sqrtA : ℚ → ℚ)
    (liss : Vec4 → ℚ → Vec3) (s : Scene) (numCubes numLights : ℕ) : Scene :=
  if s.vao ≠ 0 then s
  else
    let cubePositions := s.cubePositions ++
      ((⟨0, 0.5, 0⟩ : Vec3) :: (List.range' 1 (numCubes - 1)).map (fun i =>
        (⟨getRandom (u (3 * (i - 1))) (-5) 5,
          getRandom (u (3 * (i - 1) + 1)) 1 5,
          getRandom (u (3 * (i - 1) + 2)) (-5) 5⟩ : Vec3)))
    let heroLight : Light :=
      { position := ⟨-3, 3, 0⟩, color := ⟨50, 50, 50, ambientIntentsity⟩,
        movement := ⟨0, 1, 0, 0⟩, radius := storedLightRadius sqrtA 50 50 50 }
    let lightBase := 3 * (numCubes - 1)
    let lights := s.lights ++
      (heroLight :: (List.range' 1 (numLights - 1)).map (fun i =>
        initRandomLight u sqrtA liss (lightBase + 7 * (i - 1))))
    { s with
      numCubes := numCubes,
      numLights := numLights,
      cubePositions := cubePositions,
      lights := lights,
      vao := env.newVao,
      instancingBuffer := env.newInstancingBuffer,
      lightBuffer := env.newLightBuffer,
      transformBlockUBO := env.newTransformBlockUBO,
      quad := env.newQuad,
      cube := env.newCube,
      icosahedron := env.newIcosahedron,
      loadedTextures := env.newTextures }

/-- The assignLightSet lambda of Scene::Update: `d = light.position - cameraPosition`,
`rSqr = radius * radius`; push the index onto `_insideLights` when
`dot(d, d) < rSqr`, else onto `_outsideLights`. `acc` is the pair
(insideLights, outsideLights). -/
def assignLightSet (lights : List Light) (cameraPosition : Vec3) (lightIdx : ℕ)
    (acc : List ℕ × List ℕ) : List ℕ × List ℕ :=
  let l := lights.getD lightIdx default
  let d := l.position - cameraPosition
  let rSqr := l.radius * l.radius
  if Vec3.dot d d < rSqr then (acc.1 ++ [lightIdx], acc.2)
  else (acc.1, acc.2 ++ [lightIdx])

/-- The `for (int i = 1; i < _numLights; ++i)` loop of Scene::Update over the
given index list: move light i along its lissajous curve, then classify it. -/
def updateLightsLoop (liss : Vec4 → ℚ → Vec3) (cameraPos : Vec3) (t : ℚ) :
    List ℕ → List Light → List ℕ × List ℕ → List Light × (List ℕ × List ℕ)
  | [], lights, acc => (lights, acc)
  | i :: rest, lights, acc =>
    let l := lights.getD i default
    let lights1 := lights.set i { l with position := offset + liss l.movement t * scale }
    let acc1 := assignLightSet lights1 cameraPos i acc
    updateLightsLoop liss cameraPos t rest lights1 acc1

/-- Scene::Update. `cameraPos` is `camera.GetViewToWorld()[3]`, `t` the static
animation timer (returned incremented by `dt`). Clears both index lists, moves
light 0 on its special offset curve and classifies it, then runs the loop over
lights 1..numLights-1. The lissajous lambda's sinf/cosf are the oracle `liss`. -/
def Scene.update (liss : Vec4 → ℚ → Vec3) (s : Scene) (dt t : ℚ)
    (cameraPos : Vec3) : Scene × ℚ :=
  let l0 := s.lights.getD 0 default
  let lights1 := s.lights.set 0 { l0 with position := (⟨-3, 2, 0⟩ : Vec3) + liss l0.movement t }
  let acc1 := assignLightSet lights1 cameraPos 0 ([], [])
  let r := updateLightsLoop liss cameraPos t (List.range' 1 (s.numLights - 1)) lights1 acc1
  ({ s with lights := r.1, insideLights := r.2.1, outsideLights := r.2.2 }, t + dt)

/-- The instance record Scene::UpdateInstanceData stages for cube i:
`translate(pos) * rotate(radians(i * 20), vec3(1,1,1))`, stored transposed.
`rotate111 deg` is glm::rotate(glm::radians(deg), glm::vec3(1,1,1)), an oracle
(its entries are transcendental in the angle). -/
def cubeInstanceRecord (rotate111 : ℚ → Mat4) (pos : Vec3) (i : ℕ) : InstanceData :=
  ⟨storeTransform (Mat4.translate pos * rotate111 ((i : ℚ) * 20))⟩

/-- Scene::UpdateInstanceData: stage `numCubes` cube transforms and memcpy
exactly `numCubes * sizeof(InstanceData)` bytes into the instancing UBO - i.e.
overwrite record slots 0..numCubes-1 and leave all later slots untouched. -/
def Scene.updateInstanceData (rotate111 : ℚ → Mat4) (s : Scene) (gpu : Gpu) : Gpu :=
  { gpu with
    instancingTable := fun i =>
      if i < s.numCubes then
        cubeInstanceRecord rotate111 (s.cubePositions.getD i default) i
      else gpu.instancingTable i }

/-- Light picked by Scene::UpdateLightData's `getLight` lambdas for slot idx of
the selected light set. -/
def Scene.getLightOf (s : Scene) (lightSet : LightSet) (idx : ℕ) : Light :=
  match lightSet with
  | .All => s.lights.getD idx default
  | .Inside => s.lights.getD (s.insideLights.getD idx 0) default
  | .Outside => s.lights.getD (s.outsideLights.getD idx 0) default

/-- Subset size computed by Scene::UpdateLightData's switch: `_numLights` for
All, the index-list sizes otherwise. -/
def Scene.numLightsOf (s : Scene) (lightSet : LightSet) : ℕ :=
  match lightSet with
  | .All => s.numLights
  | .Inside => s.insideLights.length
  | .Outside => s.outsideLights.length

/-- The instance record Scene::UpdateLightData stages for one light:
`translate(light.position) * scale(vec3(s))` with s = 0.1 when visualizing,
else the light's radius; stored transposed. -/
def lightInstanceRecord (light : Light) (visualization : Bool) : InstanceData :=
  let sc : ℚ := if visualization then 0.1 else light.radius
  ⟨storeTransform (Mat4.translate light.position * Mat4.scale (Vec3.splat sc))⟩

/-- The light record Scene::UpdateLightData stages for one light:
vec4(position, radius) and color * attenuation with attenuation = 0.05 when
visualizing, else 1.0. -/
def lightDataRecord (light : Light) (visualization : Bool) : LightData :=
  let attenuation : ℚ := if visualization then 0.05 else 1
  ⟨Vec4.ofVec3 light.position light.radius, light.color.smul attenuation⟩

/-- Scene::UpdateLightData: pick the subset, stage one instance record and one
light record per light of the subset, memcpy exactly `numLights` records into
each UBO (later slots keep their previous contents), and return the count. -/
def Scene.updateLightData (s : Scene) (gpu : Gpu) (lightSet : LightSet)
    (visualization : Bool) : ℕ × Gpu :=
  let numLights := s.numLightsOf lightSet
  let gpu1 : Gpu :=
    { gpu with
      instancingTable := fun i =>
        if i < numLights then lightInstanceRecord (s.getLightOf lightSet i) visualization
        else gpu.instancingTable i }
  let gpu2 : Gpu :=
    { gpu1 with
      lightTable := fun i =>
        if i < numLights then lightDataRecord (s.getLightOf lightSet i) visualization
        else gpu.lightTable i }
  (numLights, gpu2)

/-- glCullFace argument. -/
inductive CullFaceMode where
  | front
  | back
deriving DecidableEq, Inhabited

/-- The shader programs of 09-Deferred (names as used by scene.cpp/shaders.cpp). -/
inductive ShaderProg where
  | defaultGBuffer
  | instancedGBuffer
  | ambientLightPass
  | instancedLightPass
  | instancedLightVis
  | tonemapping
deriving DecidableEq, Inhabited

/-- GL commands Scene::DrawLights issues, in submission order. `updLights`
records the UpdateLightData call feeding the subsequent draw (which subset was
uploaded into the tables, and whether in visualization form). -/
inductive GLCmd where
  | useProgram (p : ShaderProg)
  | setCameraUniforms
  | cullFace (m : CullFaceMode)
  | depthTest (enabled : Bool)
  | updLights (lightSet : LightSet) (visualization : Bool)
  | bindVertexArray (vao : ℕ)
  | drawInstanced (vao : ℕ) (instances : ℕ)
deriving DecidableEq, Inhabited

/-- Scene::DrawLights: camera uniforms, the Inside pass with front-face culling
and no depth test, the Outside pass with back-face culling and the depth test
on, then the visualization pass over all lights; each pass re-uploads its
subset and draws the icosahedron proxy instanced only when its count is
positive. Returns the command trace and the final table state. -/
def Scene.drawLights (s : Scene) (gpu : Gpu) : List GLCmd × Gpu :=
  let lightPass : Gpu → LightSet → Bool → List GLCmd × Gpu := fun gpu lightSet visualize =>
    let r := s.updateLightData gpu lightSet visualize
    (GLCmd.updLights lightSet visualize ::
      (if 0 < r.1 then
        [GLCmd.bindVertexArray s.icosahedron, GLCmd.drawInstanced s.icosahedron r.1]
      else []), r.2)
  let p1 := lightPass gpu .Inside false
  let p2 := lightPass p1.2 .Outside false
  let p3 := lightPass p2.2 .All true
  ([GLCmd.useProgram .instancedLightPass, GLCmd.setCameraUniforms,
    GLCmd.cullFace .front, GLCmd.depthTest false] ++ p1.1 ++
   [GLCmd.cullFace .back, GLCmd.depthTest true] ++ p2.1 ++
   [GLCmd.useProgram .instancedLightVis] ++ p3.1, p3.2)

/-- Pipeline state relevant to the light passes: culling direction, depth-test
enable, and which UpdateLightData call last filled the tables. -/
structure PipeState where
  cull : CullFaceMode
  depth : Bool
  upload : LightSet × Bool
deriving DecidableEq, Inhabited

/-- Fold a command trace, tracking pipeline state, and record for every
instanced draw the state in which it was issued together with its instance
count. -/
def annotateDraws : PipeState → List GLCmd → List (PipeState × ℕ)
  | _, [] => []
  | st, GLCmd.cullFace m :: rest => annotateDraws { st with cull := m } rest
  | st, GLCmd.depthTest b :: rest => annotateDraws { st with depth := b } rest
  | st, GLCmd.updLights ls v :: rest => annotateDraws { st with upload := (ls, v) } rest
  | st, GLCmd.drawInstanced _ n :: rest => (st, n) :: annotateDraws st rest
  | st, GLCmd.useProgram _ :: rest => annotateDraws st rest
  | st, GLCmd.setCameraUniforms :: rest => annotateDraws st rest
  | st, GLCmd.bindVertexArray _ :: rest => annotateDraws st rest

/-- Concrete sample inputs used to instantiate proved theorems. A lissajous
oracle that always returns the origin. -/
def lissZero : Vec4 → ℚ → Vec3 := fun _ _ => ⟨0, 0, 0⟩

/-- A sqrt oracle that always returns 0 (only light radii depend on it). -/
def sqrtZero : ℚ → ℚ := fun _ => 0

/-- An all-zero GL-environment oracle. -/
def envZero : GLEnv := ⟨0, 0, 0, 0, 0, 0, 0, []⟩

/-- GPU tables holding default records in every slot. -/
def gpuZero : Gpu := ⟨fun _ => default, fun _ => default⟩

/-- A sample light: unit-ish color, radius 2, sitting at the origin. -/
def sampleLight : Light :=
  { position := ⟨0, 0, 0⟩, color := ⟨1, 1, 1, 1⟩, movement := ⟨0, 0, 0, 0⟩,
    radius := 2 }

/-- A sample scene holding one light (already classified inside), with a
non-zero VAO name, as after a completed Init and Update. -/
def sampleScene : Scene :=
  { Scene.initial with
    numCubes := 1,
    cubePositions := [⟨0, 0.5, 0⟩],
    numLights := 1,
    lights := [sampleLight],
    insideLights := [0],
    outsideLights := [],
    vao := 1,
    icosahedron := 7 }

/-- The scene produced by Init on a fresh state with 1 cube and 2 lights when
every rand() draw is 0 - the second light then receives color (0, 0, 0). -/
def cexScene : Scene :=
  Scene.init envZero (fun _ => 0) sqrtZero lissZero Scene.initial 1 2

/-- A sample affine model-to-world transform (translation by (1,2,3) combined
with a non-uniform scale): its last row is (0,0,0,1). -/
def sampleTransform : Mat4 :=
  ⟨⟨2, 0, 0, 0⟩, ⟨0, 3, 0, 0⟩, ⟨0, 0, 4, 0⟩, ⟨1, 2, 3, 1⟩⟩

/-!
## Theorems

First the small unfolding equations for the arithmetic instances, then the
claims in order.
-/

theorem Vec3.add_def (a b : Vec3) :
    a + b = ⟨a.x + b.x, a.y + b.y, a.z + b.z⟩ := rfl

theorem Vec3.sub_def (a b : Vec3) :
    a - b = ⟨a.x - b.x, a.y - b.y, a.z - b.z⟩ := rfl

theorem Vec3.mul_def (a b : Vec3) :
    a * b = ⟨a.x * b.x, a.y * b.y, a.z * b.z⟩ := rfl

theorem Vec3.div_def (a b : Vec3) :
    a / b = ⟨a.x / b.x, a.y / b.y, a.z / b.z⟩ := rfl

theorem Mat4.mul_unfold (a b : Mat4) : a * b = Mat4.mul a b := rfl

/-- C7: storing an affine model-to-world transform (last row (0,0,0,1)) as the
3x4 Instance Transform Record - the transpose truncated to three vec4 columns -
and reconstructing a 4x4 matrix by transposing back and appending the implicit
row (0,0,0,1) reproduces the original transform exactly. -/
theorem transform_record_roundtrip (t : Mat4)
    (h0 : t.c0.w = 0) (h1 : t.c1.w = 0) (h2 : t.c2.w = 0) (h3 : t.c3.w = 1) :
    reconstructTransform (storeTransform t) = t := by
  cases t with
  | mk c0 c1 c2 c3 =>
    cases c0
    cases c1
    cases c2
    cases c3
    simp only [reconstructTransform, storeTransform, Mat4.transpose,
      Mat4.toMat3x4] at *
    simp_all

/-- Witness for C7 at the sample transform. -/
theorem transform_record_roundtrip_witness :
    (sampleTransform.c0.w = 0 ∧ sampleTransform.c1.w = 0 ∧
      sampleTransform.c2.w = 0 ∧ sampleTransform.c3.w = 1) ∧
    reconstructTransform (storeTransform sampleTransform) = sampleTransform :=
  ⟨⟨by decide, by decide, by decide, by decide⟩,
    transform_record_roundtrip sampleTransform rfl rfl rfl rfl⟩

/-- C8: the tonemap operator computes hdr / (hdr + 1) componentwise; it maps
the zero vector to the zero vector, and every componentwise non-negative HDR
input to a value strictly below 1 in every channel. -/
theorem tonemap_bounds :
    ApplyTonemapping ⟨0, 0, 0⟩ = ⟨0, 0, 0⟩ ∧
    ∀ hdr : Vec3, 0 ≤ hdr.x → 0 ≤ hdr.y → 0 ≤ hdr.z →
      (ApplyTonemapping hdr).x < 1 ∧ (ApplyTonemapping hdr).y < 1 ∧
      (ApplyTonemapping hdr).z < 1 := by
  constructor
  · show (⟨0, 0, 0⟩ : Vec3) / (⟨0, 0, 0⟩ + ⟨1, 1, 1⟩) = (⟨0, 0, 0⟩ : Vec3)
    rw [Vec3.add_def, Vec3.div_def]
    norm_num
  · intro hdr hx hy hz
    refine ⟨?_, ?_, ?_⟩
    · show hdr.x / (hdr.x + 1) < 1
      rw [div_lt_one (by linarith)]
      linarith
    · show hdr.y / (hdr.y + 1) < 1
      rw [div_lt_one (by linarith)]
      linarith
    · show hdr.z / (hdr.z + 1) < 1
      rw [div_lt_one (by linarith)]
      linarith

/-- Witness for C8 at the HDR input (1e6, 1e6, 1e6). -/
theorem tonemap_bounds_witness :
    (0 : ℚ) ≤ 1000000 ∧
    ((ApplyTonemapping ⟨1000000, 1000000, 1000000⟩).x < 1 ∧
     (ApplyTonemapping ⟨1000000, 1000000, 1000000⟩).y < 1 ∧
     (ApplyTonemapping ⟨1000000, 1000000, 1000000⟩).z < 1) :=
  ⟨by norm_num,
    tonemap_bounds.2 ⟨1000000, 1000000, 1000000⟩ (by norm_num) (by norm_num)
      (by norm_num)⟩

/-- C1: assignLightSet computes d = lightPosition - cameraPosition and
classifies the light as inside (appending its index to the inside list)
exactly when dot(d,d) < radius * radius, and as outside otherwise; in
particular, when the camera lies exactly on the sphere boundary
(dot(d,d) = radius * radius) the strict comparison classifies it outside. -/
theorem assignLightSet_inside_iff (lights : List Light) (cameraPosition : Vec3)
    (lightIdx : ℕ) (inside outside : List ℕ) :
    (assignLightSet lights cameraPosition lightIdx (inside, outside) =
        (inside ++ [lightIdx], outside) ↔
      Vec3.dot ((lights.getD lightIdx default).position - cameraPosition)
          ((lights.getD lightIdx default).position - cameraPosition) <
        (lights.getD lightIdx default).radius *
          (lights.getD lightIdx default).radius) ∧
    (¬ Vec3.dot ((lights.getD lightIdx default).position - cameraPosition)
          ((lights.getD lightIdx default).position - cameraPosition) <
        (lights.getD lightIdx default).radius *
          (lights.getD lightIdx default).radius →
      assignLightSet lights cameraPosition lightIdx (inside, outside) =
        (inside, outside ++ [lightIdx])) ∧
    (Vec3.dot ((lights.getD lightIdx default).position - cameraPosition)
          ((lights.getD lightIdx default).position - cameraPosition) =
        (lights.getD lightIdx default).radius *
          (lights.getD lightIdx default).radius →
      assignLightSet lights cameraPosition lightIdx (inside, outside) =
        (inside, outside ++ [lightIdx])) := by
  by_cases h : Vec3.dot ((lights.getD lightIdx default).position - cameraPosition)
      ((lights.getD lightIdx default).position - cameraPosition) <
      (lights.getD lightIdx default).radius * (lights.getD lightIdx default).radius
  · refine ⟨⟨fun _ => h, fun _ => ?_⟩, fun hn => absurd h hn, fun heq => ?_⟩
    · simp only [assignLightSet]
      rw [if_pos h]
    · exact absurd h (by rw [heq]; exact lt_irrefl _)
  · have hval : assignLightSet lights cameraPosition lightIdx (inside, outside) =
        (inside, outside ++ [lightIdx]) := by
      simp only [assignLightSet]
      rw [if_neg h]
    refine ⟨⟨fun hres => ?_, fun hlt => absurd hlt h⟩, fun _ => hval,
      fun _ => hval⟩
    rw [hval] at hres
    have hlen := congrArg (fun p : List ℕ × List ℕ => p.2.length) hres
    simp at hlen

/-- Witness for C1: camera exactly on the boundary sphere (distance 2 equals
the radius 2 of the sample light) is classified outside. -/
theorem assignLightSet_inside_iff_witness :
    Vec3.dot (([sampleLight].getD 0 default).position - ⟨2, 0, 0⟩)
        (([sampleLight].getD 0 default).position - ⟨2, 0, 0⟩) =
      ([sampleLight].getD 0 default).radius *
        ([sampleLight].getD 0 default).radius ∧
    assignLightSet [sampleLight] ⟨2, 0, 0⟩ 0 ([], []) = ([], [0]) :=
  ⟨by norm_num [sampleLight, Vec3.dot, Vec3.sub_def],
    (assignLightSet_inside_iff [sampleLight] ⟨2, 0, 0⟩ 0 [] []).2.2
      (by norm_num [sampleLight, Vec3.dot, Vec3.sub_def])⟩

/-- C9: once Init has completed (the VAO name is non-zero), any further Init
call, with any arguments, returns immediately and leaves the whole scene state
unchanged - the new cube and light counts are ignored. -/
theorem init_idempotent (env : GLEnv) (u : ℕ → ℚ) (sqrtA : ℚ → ℚ)
    (liss : Vec4 → ℚ → Vec3) (s : Scene) (numCubes numLights : ℕ)
    (h : s.vao ≠ 0) :
    Scene.init env u sqrtA liss s numCubes numLights = s := by
  unfold Scene.init
  rw [if_pos h]

/-- Witness for C9: re-initializing the sample scene (VAO name 1) with other
counts changes nothing. -/
theorem init_idempotent_witness :
    sampleScene.vao ≠ 0 ∧
    Scene.init envZero (fun _ => 0) sqrtZero lissZero sampleScene 3 7 =
      sampleScene :=
  ⟨by decide,
    init_idempotent envZero (fun _ => 0) sqrtZero lissZero sampleScene 3 7
      (by decide)⟩

theorem Vec4.smul_one (v : Vec4) : v.smul 1 = v := by
  cases v
  simp [Vec4.smul]

/-- The light-volume transform `translate(p) * scale(vec3(sc))`, stored
transposed and truncated, is the 3x4 record whose rows carry the uniform scale
on the diagonal and the translation in the last components. -/
theorem storeTransform_translate_scale (p : Vec3) (sc : ℚ) :
    storeTransform (Mat4.translate p * Mat4.scale (Vec3.splat sc)) =
      ⟨⟨sc, 0, 0, p.x⟩, ⟨0, sc, 0, p.y⟩, ⟨0, 0, sc, p.z⟩⟩ := by
  simp only [Mat4.mul_unfold, Mat4.mul, Mat4.translate, Mat4.scale, Vec3.splat,
    Mat4.mulVec, storeTransform, Mat4.transpose, Mat4.toMat3x4]
  norm_num

/-- C3: UpdateLightData returns exactly the size of the selected subset
(numLights for All, the index-list length for Inside/Outside) and writes, for
each light of the subset, one transform record with translation equal to the
light's position and uniform scale 0.1 when visualizing / the light's radius
otherwise, and one light record vec4(position, radius) with the color scaled
by 0.05 when visualizing / by 1.0 otherwise. -/
theorem updateLightData_count_and_records (s : Scene) (gpu : Gpu)
    (lightSet : LightSet) (visualization : Bool) :
    (s.updateLightData gpu lightSet visualization).1 =
      (match lightSet with
       | .All => s.numLights
       | .Inside => s.insideLights.length
       | .Outside => s.outsideLights.length) ∧
    ∀ i, i < (s.updateLightData gpu lightSet visualization).1 →
      ((s.updateLightData gpu lightSet visualization).2.instancingTable i =
        ⟨⟨⟨(if visualization then 0.1 else (s.getLightOf lightSet i).radius),
            0, 0, (s.getLightOf lightSet i).position.x⟩,
          ⟨0, (if visualization then 0.1 else (s.getLightOf lightSet i).radius),
            0, (s.getLightOf lightSet i).position.y⟩,
          ⟨0, 0, (if visualization then 0.1 else (s.getLightOf lightSet i).radius),
            (s.getLightOf lightSet i).position.z⟩⟩⟩ ∧
       (s.updateLightData gpu lightSet visualization).2.lightTable i =
        ⟨⟨(s.getLightOf lightSet i).position.x, (s.getLightOf lightSet i).position.y,
          (s.getLightOf lightSet i).position.z, (s.getLightOf lightSet i).radius⟩,
         if visualization then (s.getLightOf lightSet i).color.smul 0.05
         else (s.getLightOf lightSet i).color⟩) := by
  constructor
  · rfl
  · intro i hi
    simp only [Scene.updateLightData] at hi ⊢
    rw [if_pos hi, if_pos hi]
    constructor
    · rw [show lightInstanceRecord (s.getLightOf lightSet i) visualization =
          ⟨storeTransform (Mat4.translate (s.getLightOf lightSet i).position *
            Mat4.scale (Vec3.splat (if visualization then 0.1
              else (s.getLightOf lightSet i).radius)))⟩ from rfl]
      rw [storeTransform_translate_scale]
    · cases visualization
      · rw [show lightDataRecord (s.getLightOf lightSet i) false =
            ⟨Vec4.ofVec3 (s.getLightOf lightSet i).position
              (s.getLightOf lightSet i).radius,
             (s.getLightOf lightSet i).color.smul 1⟩ from rfl]
        rw [Vec4.smul_one]
        rfl
      · rfl

/-- Witness for C3: the sample scene's single inside light (radius 2 at the
origin, color (1,1,1,1)) yields count 1 and the expected records. -/
theorem updateLightData_count_and_records_witness :
    0 < (sampleScene.updateLightData gpuZero .Inside false).1 ∧
    ((sampleScene.updateLightData gpuZero .Inside false).2.instancingTable 0 =
      ⟨⟨⟨2, 0, 0, 0⟩, ⟨0, 2, 0, 0⟩, ⟨0, 0, 2, 0⟩⟩⟩ ∧
     (sampleScene.updateLightData gpuZero .Inside false).2.lightTable 0 =
      ⟨⟨0, 0, 0, 2⟩, ⟨1, 1, 1, 1⟩⟩) :=
  ⟨by decide,
    (updateLightData_count_and_records sampleScene gpuZero .Inside false).2 0
      (by decide)⟩

/-- C10: UpdateInstanceData overwrites exactly the first numCubes instance
records, UpdateLightData exactly the first count (its return value) instance
and light records; every record at an index at or past the written count keeps
its previous contents, so stale records from earlier uploads persist beyond
the prefix. -/
theorem tables_stale_beyond_count (rotate111 : ℚ → Mat4) (s : Scene)
    (gpu : Gpu) (lightSet : LightSet) (visualization : Bool) :
    (∀ i, i < s.numCubes →
      (s.updateInstanceData rotate111 gpu).instancingTable i =
        cubeInstanceRecord rotate111 (s.cubePositions.getD i default) i) ∧
    (∀ i, s.numCubes ≤ i →
      (s.updateInstanceData rotate111 gpu).instancingTable i =
        gpu.instancingTable i) ∧
    (∀ i, i < (s.updateLightData gpu lightSet visualization).1 →
      ((s.updateLightData gpu lightSet visualization).2.instancingTable i =
        lightInstanceRecord (s.getLightOf lightSet i) visualization ∧
       (s.updateLightData gpu lightSet visualization).2.lightTable i =
        lightDataRecord (s.getLightOf lightSet i) visualization)) ∧
    (∀ i, (s.updateLightData gpu lightSet visualization).1 ≤ i →
      ((s.updateLightData gpu lightSet visualization).2.instancingTable i =
        gpu.instancingTable i ∧
       (s.updateLightData gpu lightSet visualization).2.lightTable i =
        gpu.lightTable i)) := by
  refine ⟨fun i hi => ?_, fun i hi => ?_, fun i hi => ?_, fun i hi => ?_⟩
  · simp only [Scene.updateInstanceData]
    rw [if_pos hi]
  · simp only [Scene.updateInstanceData]
    rw [if_neg (not_lt.mpr hi)]
  · simp only [Scene.updateLightData] at hi ⊢
    rw [if_pos hi, if_pos hi]
    exact ⟨rfl, rfl⟩
  · simp only [Scene.updateLightData] at hi ⊢
    rw [if_neg (not_lt.mpr hi), if_neg (not_lt.mpr hi)]
    exact ⟨rfl, rfl⟩

/-- Witness for C10: with one cube and one inside light, record slot 1 of each
table survives both upload paths untouched. -/
theorem tables_stale_beyond_count_witness :
    (sampleScene.numCubes ≤ 1 ∧
     (sampleScene.updateInstanceData (fun _ => default) gpuZero).instancingTable 1 =
       gpuZero.instancingTable 1) ∧
    ((sampleScene.updateLightData gpuZero .Inside false).1 ≤ 1 ∧
     ((sampleScene.updateLightData gpuZero .Inside false).2.instancingTable 1 =
        gpuZero.instancingTable 1 ∧
      (sampleScene.updateLightData gpuZero .Inside false).2.lightTable 1 =
        gpuZero.lightTable 1)) :=
  ⟨⟨by decide,
    (tables_stale_beyond_count (fun _ => default) sampleScene gpuZero .Inside
      false).2.1 1 (by decide)⟩,
   ⟨by decide,
    (tables_stale_beyond_count (fun _ => default) sampleScene gpuZero .Inside
      false).2.2.2 1 (by decide)⟩⟩

theorem updateLightData_fst (s : Scene) (gpu : Gpu) (lightSet : LightSet)
    (v : Bool) :
    (s.updateLightData gpu lightSet v).1 = s.numLightsOf lightSet := rfl

/-- C4: in every frame drawn by DrawLights, the Inside-subset pass is issued
with front-face culling and the depth test disabled, then the Outside-subset
pass with back-face culling and the depth test enabled, then the visualization
pass draws the All subset; a pass whose subset count is 0 issues no draw call.
(Each recorded draw carries the pipeline state it was issued in, which
UpdateLightData call fed it, and its instance count.) -/
theorem drawLights_pass_order (s : Scene) (gpu : Gpu) (st0 : PipeState) :
    annotateDraws st0 (s.drawLights gpu).1 =
      (if 0 < s.insideLights.length then
        [(⟨.front, false, (.Inside, false)⟩, s.insideLights.length)] else []) ++
      (if 0 < s.outsideLights.length then
        [(⟨.back, true, (.Outside, false)⟩, s.outsideLights.length)] else []) ++
      (if 0 < s.numLights then
        [(⟨.back, true, (.All, true)⟩, s.numLights)] else []) := by
  simp only [Scene.drawLights, updateLightData_fst, Scene.numLightsOf]
  by_cases h1 : 0 < s.insideLights.length <;>
    by_cases h2 : 0 < s.outsideLights.length <;>
      by_cases h3 : 0 < s.numLights <;>
        simp [h1, h2, h3, annotateDraws]

theorem assignLightSet_cases (lights : List Light) (cameraPos : Vec3) (i : ℕ)
    (acc : List ℕ × List ℕ) :
    assignLightSet lights cameraPos i acc = (acc.1 ++ [i], acc.2) ∨
    assignLightSet lights cameraPos i acc = (acc.1, acc.2 ++ [i]) := by
  simp only [assignLightSet]
  split
  · exact Or.inl rfl
  · exact Or.inr rfl

/-- Classifying one light appends its index to exactly one of the two lists:
taken together, the lists gain exactly that index. -/
theorem assignLightSet_perm (lights : List Light) (cameraPos : Vec3) (i : ℕ)
    (acc : List ℕ × List ℕ) :
    List.Perm
      ((assignLightSet lights cameraPos i acc).1 ++
       (assignLightSet lights cameraPos i acc).2)
      ((acc.1 ++ acc.2) ++ [i]) := by
  rcases assignLightSet_cases lights cameraPos i acc with h | h <;> rw [h]
  · rw [List.append_assoc]
    exact (List.Perm.append_left acc.1 List.perm_append_comm).trans
      (by rw [List.append_assoc])
  · rw [List.append_assoc]

/-- The classification loop appends exactly the visited indices (in some
interleaving) to the pair of index lists. -/
theorem updateLightsLoop_perm (liss : Vec4 → ℚ → Vec3) (cameraPos : Vec3)
    (t : ℚ) (is : List ℕ) :
    ∀ (lights : List Light) (acc : List ℕ × List ℕ),
      List.Perm
        ((updateLightsLoop liss cameraPos t is lights acc).2.1 ++
         (updateLightsLoop liss cameraPos t is lights acc).2.2)
        ((acc.1 ++ acc.2) ++ is) := by
  induction is with
  | nil =>
    intro lights acc
    simp [updateLightsLoop]
  | cons i rest ih =>
    intro lights acc
    simp only [updateLightsLoop]
    refine (ih _ _).trans ?_
    refine (List.Perm.append_right rest
      (assignLightSet_perm _ cameraPos i acc)).trans ?_
    rw [List.append_assoc, List.singleton_append]

/-- C2: after every Scene::Update (on a state with at least one light, as every
state reached through Init has), the rebuilt index lists `_insideLights` and
`_outsideLights` partition the light index set 0..numLights-1: their union is
exactly that set, they are disjoint, and neither contains a duplicate - every
light index lands in exactly one of the two lists. -/
theorem update_partitions_lights (liss : Vec4 → ℚ → Vec3) (s : Scene)
    (dt t : ℚ) (cameraPos : Vec3) (hpos : 0 < s.numLights) :
    (∀ i, (i ∈ (Scene.update liss s dt t cameraPos).1.insideLights ∨
           i ∈ (Scene.update liss s dt t cameraPos).1.outsideLights) ↔
          i < s.numLights) ∧
    List.Disjoint (Scene.update liss s dt t cameraPos).1.insideLights
      (Scene.update liss s dt t cameraPos).1.outsideLights ∧
    (Scene.update liss s dt t cameraPos).1.insideLights.Nodup ∧
    (Scene.update liss s dt t cameraPos).1.outsideLights.Nodup := by
  have key : List.Perm
      ((Scene.update liss s dt t cameraPos).1.insideLights ++
       (Scene.update liss s dt t cameraPos).1.outsideLights)
      (List.range s.numLights) := by
    obtain ⟨m, hm⟩ : ∃ m, s.numLights = m + 1 :=
      ⟨s.numLights - 1, (Nat.succ_pred_eq_of_pos hpos).symm⟩
    simp only [Scene.update]
    refine (updateLightsLoop_perm liss cameraPos t _ _ _).trans ?_
    refine (List.Perm.append_right _
      (assignLightSet_perm _ cameraPos 0 ([], []))).trans ?_
    rw [hm]
    simp [List.range_eq_range', List.range'_succ]
  have hnd := List.nodup_append.mp (key.nodup_iff.mpr (List.nodup_range _))
  exact ⟨fun i => by rw [← List.mem_append, key.mem_iff, List.mem_range],
    hnd.2.2, hnd.1, hnd.2.1⟩

/-- Witness for C2 on the one-light sample scene. -/
theorem update_partitions_lights_witness :
    0 < sampleScene.numLights ∧
    ((∀ i, (i ∈ (Scene.update lissZero sampleScene 1 0 ⟨0, 0, 0⟩).1.insideLights ∨
            i ∈ (Scene.update lissZero sampleScene 1 0 ⟨0, 0, 0⟩).1.outsideLights) ↔
           i < sampleScene.numLights) ∧
     List.Disjoint (Scene.update lissZero sampleScene 1 0 ⟨0, 0, 0⟩).1.insideLights
       (Scene.update lissZero sampleScene 1 0 ⟨0, 0, 0⟩).1.outsideLights ∧
     (Scene.update lissZero sampleScene 1 0 ⟨0, 0, 0⟩).1.insideLights.Nodup ∧
     (Scene.update lissZero sampleScene 1 0 ⟨0, 0, 0⟩).1.outsideLights.Nodup) :=
  ⟨by decide,
    update_partitions_lights lissZero sampleScene 1 0 ⟨0, 0, 0⟩ (by decide)⟩

theorem getLuminousIntensity_smul (k r g b : ℚ) :
    getLuminousIntensity ⟨k * r, k * g, k * b⟩ =
      k * getLuminousIntensity ⟨r, g, b⟩ := by
  simp only [getLuminousIntensity]
  ring

theorem rat_div_cutoff (x : ℚ) : x / (0.1 : ℚ) = x * 10 := by
  rw [div_eq_mul_inv]
  norm_num

/-- C5 counterexample: at the all-zero color (an admissible light color - the
random channels are drawn from [0,25]) with factor k = 2 > 1, the radius does
not strictly increase: both radii equal sqrt(0/0.1) = 0. -/
theorem radius_monotone_cex :
    (1 : ℚ) < 2 ∧
    ¬ (getLightRadius (2 * 0) (2 * 0) (2 * 0) > getLightRadius 0 0 0) := by
  refine ⟨by norm_num, ?_⟩
  have h : getLightRadius (2 * 0) (2 * 0) (2 * 0) = getLightRadius 0 0 0 := by
    norm_num
  rw [h]
  exact lt_irrefl _

/-- C5 (amended): for every light color with positive luminous intensity and
every factor k > 1, the radius sqrt(luminousIntensity / 0.1) computed from the
channel-scaled color k*c strictly exceeds the radius computed from c. -/
theorem radius_monotone (r g b k : ℚ)
    (hl : 0 < getLuminousIntensity ⟨r, g, b⟩) (hk : 1 < k) :
    getLightRadius (k * r) (k * g) (k * b) > getLightRadius r g b := by
  unfold getLightRadius
  rw [getLuminousIntensity_smul]
  apply Real.sqrt_lt_sqrt
  · have h0 : (0 : ℚ) ≤ getLuminousIntensity ⟨r, g, b⟩ / (0.1 : ℚ) :=
      div_nonneg hl.le (by norm_num)
    exact_mod_cast h0
  · have h1 : getLuminousIntensity ⟨r, g, b⟩ / (0.1 : ℚ) <
        k * getLuminousIntensity ⟨r, g, b⟩ / (0.1 : ℚ) := by
      rw [rat_div_cutoff, rat_div_cutoff]
      nlinarith
    exact_mod_cast h1

/-- Witness for C5 (amended) at the color (1,1,1) and factor 2. -/
theorem radius_monotone_witness :
    0 < getLuminousIntensity ⟨1, 1, 1⟩ ∧ (1 : ℚ) < 2 ∧
    getLightRadius (2 * 1) (2 * 1) (2 * 1) > getLightRadius 1 1 1 :=
  ⟨by norm_num [getLuminousIntensity], by norm_num,
    radius_monotone 1 1 1 2 (by norm_num [getLuminousIntensity]) (by norm_num)⟩

/-- C6 counterexample: when every rand() draw returns 0 (each color channel
then sits at the low end 0 of its [0,25] range), the second light Scene::Init
creates has color (0,0,0), so its exact influence radius is sqrt(0/0.1) = 0 -
not strictly positive. -/
theorem init_light_radius_cex :
    (cexScene.lights.getD 1 default) ∈ cexScene.lights ∧
    ¬ (0 < lightRadiusOfColor ((cexScene.lights.getD 1 default).color)) := by
  constructor
  · have h1 : 1 < cexScene.lights.length := by decide
    rw [List.getD_eq_getElem _ _ h1]
    exact List.getElem_mem h1
  · have hc : (cexScene.lights.getD 1 default).color =
        ⟨0, 0, 0, ambientIntentsity⟩ := by
      simp [cexScene, Scene.init, Scene.initial, initRandomLight, getRandom,
        List.range']
    rw [hc,
      show lightRadiusOfColor ⟨0, 0, 0, ambientIntentsity⟩ =
        Real.sqrt ((getLuminousIntensity ⟨0, 0, 0⟩ / (0.1 : ℚ) : ℚ) : ℝ)
      from rfl]
    norm_num [getLuminousIntensity]

/-- C6 (amended): every light Scene::Init creates on a fresh scene has a
non-negative exact radius; the hero light's radius is strictly positive, and a
created light's radius is strictly positive precisely when its color's
luminous intensity is positive (which the all-zero random color misses). -/
theorem init_light_radius (env : GLEnv) (u : ℕ → ℚ) (sqrtA : ℚ → ℚ)
    (liss : Vec4 → ℚ → Vec3) (numCubes numLights : ℕ) :
    0 < lightRadiusOfColor
      (((Scene.init env u sqrtA liss Scene.initial numCubes
          numLights).lights.getD 0 default).color) ∧
    ∀ l ∈ (Scene.init env u sqrtA liss Scene.initial numCubes numLights).lights,
      0 ≤ lightRadiusOfColor l.color ∧
      (0 < lightRadiusOfColor l.color ↔
        0 < getLuminousIntensity ⟨l.color.x, l.color.y, l.color.z⟩) := by
  have hpos : ∀ c : Vec4,
      (0 < lightRadiusOfColor c ↔
        0 < getLuminousIntensity ⟨c.x, c.y, c.z⟩) := by
    intro c
    rw [show lightRadiusOfColor c =
        Real.sqrt ((getLuminousIntensity ⟨c.x, c.y, c.z⟩ / (0.1 : ℚ) : ℚ) : ℝ)
      from rfl]
    rw [Real.sqrt_pos]
    rw [show ((0 : ℝ) < ((getLuminousIntensity ⟨c.x, c.y, c.z⟩ / (0.1 : ℚ) : ℚ) : ℝ)) ↔
        (0 : ℚ) < getLuminousIntensity ⟨c.x, c.y, c.z⟩ / (0.1 : ℚ) from by
      exact_mod_cast Iff.rfl]
    rw [rat_div_cutoff]
    constructor
    · intro h
      nlinarith
    · intro h
      nlinarith
  constructor
  · have hc : ((Scene.init env u sqrtA liss Scene.initial numCubes
        numLights).lights.getD 0 default).color =
        ⟨50, 50, 50, ambientIntentsity⟩ := by
      simp [Scene.init, Scene.initial]
    rw [hc, hpos]
    norm_num [getLuminousIntensity]
  · intro l _
    exact ⟨Real.sqrt_nonneg _, hpos l.color⟩

/-- Witness for C6 (amended): the hero light of a concrete Init run. -/
theorem init_light_radius_witness :
    (cexScene.lights.getD 0 default) ∈ cexScene.lights ∧
    (0 ≤ lightRadiusOfColor ((cexScene.lights.getD 0 default).color) ∧
     (0 < lightRadiusOfColor ((cexScene.lights.getD 0 default).color) ↔
      0 < getLuminousIntensity
        ⟨((cexScene.lights.getD 0 default).color).x,
         ((cexScene.lights.getD 0 default).color).y,
         ((cexScene.lights.getD 0 default).color).z⟩)) := by
  have h0 : 0 < cexScene.lights.length := by decide
  have hmem : cexScene.lights.getD 0 default ∈ cexScene.lights := by
    rw [List.getD_eq_getElem _ _ h0]
    exact List.getElem_mem h0
  exact ⟨hmem,
    (init_light_radius envZero (fun _ => 0) sqrtZero lissZero 1 2).2 _ hmem⟩

end Deferred
